import Mathlib

/-!
Shallow embedding of the Raywatch Geyser plugin
(`src/apps/geyser-plugin/src/lib.rs`): an event normalization and
publishing pipeline that maps versioned host notifications to canonical
transaction/entry events and publishes them, JSON-serialized and keyed by
the big-endian slot bytes, to a Kafka topic.

Modelling conventions:
- Rust `u64`/`usize` fields become `Nat` (values produced by the host are
  below `2 ^ 64`; where the width matters the theorems carry that bound).
- Side effects (log lines, producer enqueues) become an explicit
  `List Effect` returned alongside the Rust return value.
- The rdkafka `BaseProducer` is opaque to this code; it is modelled by the
  outcomes its two used operations (`send`, `flush`) would report, so that
  theorems quantify over every producer behavior.
- `solana_sdk::signature::Signature` is only ever displayed via
  `to_string()` (its base58 form), so a signature is modelled by that
  display string.
-/

/-- Canonical entry event, from `struct EntryEvent` (serde field order is
declaration order: slot, idx, num_hashes, executed_tx_count). -/
structure EntryEvent where
  slot : Nat
  idx : Nat
  num_hashes : Nat
  executed_tx_count : Nat
deriving DecidableEq, Repr

/-- Canonical transaction event, from `struct TxEvent` (serde field order:
slot, signature, is_vote). -/
structure TxEvent where
  slot : Nat
  signature : String
  is_vote : Bool
deriving DecidableEq, Repr

/-- Behavior of an rdkafka `BaseProducer` as observed by this code:
whether `send` reports an error (and its display text), and likewise for
`flush`. `none` means the operation succeeds. -/
structure ProducerBehavior where
  sendErr : Option String
  flushErr : Option String
deriving DecidableEq, Repr

/-- Plugin state, from `struct RaywatchGeyserPlugin`. -/
structure RaywatchGeyserPlugin where
  producer : Option ProducerBehavior
  topic : String
deriving DecidableEq, Repr

/-- Parsed plugin configuration, from `struct PluginConfig`. -/
structure PluginConfig where
  kafka_brokers : String
deriving DecidableEq, Repr

/-- Hardcoded default broker address, from `fn default_kafka_brokers`. -/
def default_kafka_brokers : String :=
  "localhost:9092"

/-- Geyser plugin error; the plugin only ever constructs
`GeyserPluginError::Custom(e)`, modelled with the display text of `e`. -/
inductive GeyserPluginError where
  | Custom (msg : String)
deriving DecidableEq, Repr

/-- A record handed to `producer.send`: destination topic, key bytes and
payload bytes (the payload is valid UTF-8 JSON here, kept as a string). -/
structure KafkaRecord where
  topic : String
  key : List Nat
  payload : String
deriving DecidableEq, Repr

/-- One observable side effect of the plugin: a log line (level, message)
or an enqueue of a record via `producer.send`. -/
inductive Effect where
  | log (level : String) (msg : String)
  | publish (rec : KafkaRecord)
deriving DecidableEq, Repr

/-- Records enqueued within an effect list, in order. -/
def publishes (effects : List Effect) : List KafkaRecord :=
  effects.filterMap (fun e =>
    match e with
    | Effect.publish r => some r
    | Effect.log _ _ => none)

/-- Big-endian bytes of a `u64`, from Rust `u64::to_be_bytes` (`slot` is a
`u64`, so the interesting case is `n < 2 ^ 64`). -/
def u64BeBytes (n : Nat) : List Nat :=
  [n / 2 ^ 56 % 256, n / 2 ^ 48 % 256, n / 2 ^ 40 % 256, n / 2 ^ 32 % 256,
   n / 2 ^ 24 % 256, n / 2 ^ 16 % 256, n / 2 ^ 8 % 256, n % 256]

/-- Value denoted by a big-endian byte list (specification-side reading,
used to state that a key really is the big-endian encoding of the slot). -/
def beValue (bs : List Nat) : Nat :=
  bs.foldl (fun a b => a * 256 + b) 0

/-- Hexadecimal digit characters as serde_json emits them (lowercase). -/
def hexDigit (n : Nat) : Char :=
  if n < 10 then Char.ofNat (48 + n) else Char.ofNat (87 + n)

/-- Escape one character the way serde_json escapes string contents:
quote and backslash get a backslash, control characters use the short
escapes or a lowercase u-escape, everything else passes through. -/
def jsonEscapeChar (c : Char) : String :=
  if c.toNat = 34 then "\\\""
  else if c.toNat = 92 then "\\\\"
  else if c.toNat < 32 then
    if c.toNat = 8 then "\\b"
    else if c.toNat = 9 then "\\t"
    else if c.toNat = 10 then "\\n"
    else if c.toNat = 12 then "\\f"
    else if c.toNat = 13 then "\\r"
    else String.mk [Char.ofNat 92, Char.ofNat 117, Char.ofNat 48, Char.ofNat 48,
                    hexDigit (c.toNat / 16), hexDigit (c.toNat % 16)]
  else String.mk [c]

/-- JSON string literal for `s`, as serde_json prints a Rust `String`. -/
def jsonString (s : String) : String :=
  "\"" ++ String.join (s.data.map jsonEscapeChar) ++ "\""

/-- JSON text serde_json produces for a `TxEvent` (fields in declaration
order, compact separators). -/
def txEventJson (e : TxEvent) : String :=
  "\x7b\"slot\":" ++ toString e.slot
    ++ ",\"signature\":" ++ jsonString e.signature
    ++ ",\"is_vote\":" ++ (if e.is_vote then "true" else "false") ++ "\x7d"

/-- JSON text serde_json produces for an `EntryEvent`. -/
def entryEventJson (e : EntryEvent) : String :=
  "\x7b\"slot\":" ++ toString e.slot
    ++ ",\"idx\":" ++ toString e.idx
    ++ ",\"num_hashes\":" ++ toString e.num_hashes
    ++ ",\"executed_tx_count\":" ++ toString e.executed_tx_count ++ "\x7d"

/-- Outcome of `serde_json::to_vec` on a `TxEvent`; on these plain field
types (u64, String, bool) serde_json serialization cannot fail, so the
error branch of the source `match` is unreachable but kept in the callers
to mirror the source. -/
def serde_json_to_vec_tx (e : TxEvent) : Except String String :=
  Except.ok (txEventJson e)

/-- Outcome of `serde_json::to_vec` on an `EntryEvent` (infallible, as for
`TxEvent`). -/
def serde_json_to_vec_entry (e : EntryEvent) : Except String String :=
  Except.ok (entryEventJson e)

/-- Embedding of `RaywatchGeyserPlugin::send_tx_event`. Returns the side
effects: with no producer it does nothing; otherwise it serializes the
canonical event, enqueues one keyed record, logs a send error if the
producer reports one, and ignores the flush result (`let _ = flush`). -/
def RaywatchGeyserPlugin.send_tx_event (p : RaywatchGeyserPlugin) (slot : Nat)
    (signature : String) (is_vote : Bool) : List Effect :=
  match p.producer with
  | some producer =>
      let event : TxEvent := { slot := slot, signature := signature, is_vote := is_vote }
      match serde_json_to_vec_tx event with
      | Except.ok payload =>
          let key := u64BeBytes slot
          let record : KafkaRecord := { topic := p.topic, key := key, payload := payload }
          Effect.publish record ::
            (match producer.sendErr with
             | some e => [Effect.log ("error") ("RaywatchGeyserPlugin: failed to send tx to Kafka: " ++ e)]
             | none => [])
      | Except.error e =>
          [Effect.log ("error") ("RaywatchGeyserPlugin: failed to serialize tx: " ++ e)]
  | none => []

/-- Embedding of `RaywatchGeyserPlugin::send_entry_event`. Like the
transaction path, but the flush error (when reported) is also logged. -/
def RaywatchGeyserPlugin.send_entry_event (p : RaywatchGeyserPlugin) (slot : Nat)
    (index : Nat) (num_hashes : Nat) (executed_transaction_count : Nat) : List Effect :=
  match p.producer with
  | some producer =>
      let event : EntryEvent :=
        { slot := slot, idx := index, num_hashes := num_hashes,
          executed_tx_count := executed_transaction_count }
      match serde_json_to_vec_entry event with
      | Except.ok payload =>
          let key := u64BeBytes slot
          let record : KafkaRecord := { topic := p.topic, key := key, payload := payload }
          Effect.publish record ::
            ((match producer.sendErr with
              | some e => [Effect.log ("error") ("RaywatchGeyserPlugin: failed to send to Kafka: " ++ e)]
              | none => []) ++
             (match producer.flushErr with
              | some e => [Effect.log ("error") ("RaywatchGeyserPlugin: flush error: " ++ e)]
              | none => []))
      | Except.error e =>
          [Effect.log ("error") ("RaywatchGeyserPlugin: failed to serialize event: " ++ e)]
  | none => []

/-- Transaction info of shape `ReplicaTransactionInfo` (V0_0_1). Only the
fields this plugin reads are modelled; the opaque `transaction` and
`transaction_status_meta` references are unused by the code. -/
structure ReplicaTransactionInfo where
  signature : String
  is_vote : Bool
deriving DecidableEq, Repr

/-- Transaction info of shapes `ReplicaTransactionInfoV2`/V3, which add a
`usize` index within the slot to the fields the plugin reads. -/
structure ReplicaTransactionInfoV2 where
  signature : String
  is_vote : Bool
  index : Nat
deriving DecidableEq, Repr

/-- Versioned transaction notification,
`ReplicaTransactionInfoVersions`. `FutureVersion` stands for any variant
this plugin does not recognize (it is matched by the catch-all `_` arm). -/
inductive ReplicaTransactionInfoVersions where
  | V0_0_1 (tx_info : ReplicaTransactionInfo)
  | V0_0_2 (tx_info : ReplicaTransactionInfoV2)
  | V0_0_3 (tx_info : ReplicaTransactionInfoV2)
  | FutureVersion
deriving DecidableEq, Repr

/-- Entry info of shape `ReplicaEntryInfo` (V0_0_1). -/
structure ReplicaEntryInfo where
  slot : Nat
  index : Nat
  num_hashes : Nat
  executed_transaction_count : Nat
deriving DecidableEq, Repr

/-- Entry info of shape `ReplicaEntryInfoV2`, which adds
`starting_transaction_index`. -/
structure ReplicaEntryInfoV2 where
  slot : Nat
  index : Nat
  num_hashes : Nat
  executed_transaction_count : Nat
  starting_transaction_index : Nat
deriving DecidableEq, Repr

/-- Versioned entry notification, `ReplicaEntryInfoVersions`;
`FutureVersion` stands for any variant matched by the catch-all arm. -/
inductive ReplicaEntryInfoVersions where
  | V0_0_1 (info : ReplicaEntryInfo)
  | V0_0_2 (info : ReplicaEntryInfoV2)
  | FutureVersion
deriving DecidableEq, Repr

/-- Slot carried by a known-version entry notification (none for an
unrecognized version). Specification-side accessor. -/
def entrySlot : ReplicaEntryInfoVersions → Option Nat
  | ReplicaEntryInfoVersions.V0_0_1 info => some info.slot
  | ReplicaEntryInfoVersions.V0_0_2 info => some info.slot
  | ReplicaEntryInfoVersions.FutureVersion => none

/-- Executed-transaction count carried by a known-version entry
notification. Specification-side accessor. -/
def entryExecCount : ReplicaEntryInfoVersions → Option Nat
  | ReplicaEntryInfoVersions.V0_0_1 info => some info.executed_transaction_count
  | ReplicaEntryInfoVersions.V0_0_2 info => some info.executed_transaction_count
  | ReplicaEntryInfoVersions.FutureVersion => none

/-- Embedding of `RaywatchGeyserPlugin::handle_tx_versions`: dispatch on
the version, log, and forward the canonical fields to `send_tx_event`;
unrecognized versions only log. Always returns `Ok(())`. -/
def RaywatchGeyserPlugin.handle_tx_versions (p : RaywatchGeyserPlugin)
    (tx : ReplicaTransactionInfoVersions) (slot : Nat) :
    Except GeyserPluginError Unit × List Effect :=
  match tx with
  | ReplicaTransactionInfoVersions.V0_0_1 tx_info =>
      (Except.ok (),
        Effect.log ("info")
            ("RaywatchGeyserPlugin: got tx in slot " ++ toString slot
              ++ " (is_vote=" ++ toString tx_info.is_vote ++ ")")
          :: p.send_tx_event slot tx_info.signature tx_info.is_vote)
  | ReplicaTransactionInfoVersions.V0_0_2 tx_info =>
      (Except.ok (),
        Effect.log ("info")
            ("RaywatchGeyserPlugin: got tx in slot " ++ toString slot
              ++ " (is_vote=" ++ toString tx_info.is_vote
              ++ ", index=" ++ toString tx_info.index ++ ")")
          :: p.send_tx_event slot tx_info.signature tx_info.is_vote)
  | ReplicaTransactionInfoVersions.V0_0_3 tx_info =>
      (Except.ok (),
        Effect.log ("info")
            ("RaywatchGeyserPlugin: got tx in slot " ++ toString slot
              ++ " (is_vote=" ++ toString tx_info.is_vote
              ++ ", index=" ++ toString tx_info.index ++ ")")
          :: p.send_tx_event slot tx_info.signature tx_info.is_vote)
  | ReplicaTransactionInfoVersions.FutureVersion =>
      (Except.ok (),
        [Effect.log ("info")
          ("RaywatchGeyserPlugin: notify_transaction called with unsupported transaction info version at slot "
            ++ toString slot)])

/-- Embedding of `RaywatchGeyserPlugin::handle_entry_versions`: entries
with `executed_transaction_count == 0` return early with no effects;
otherwise log and forward to `send_entry_event`; unrecognized versions
only log. Always returns `Ok(())`. -/
def RaywatchGeyserPlugin.handle_entry_versions (p : RaywatchGeyserPlugin)
    (entry : ReplicaEntryInfoVersions) :
    Except GeyserPluginError Unit × List Effect :=
  match entry with
  | ReplicaEntryInfoVersions.V0_0_1 info =>
      if info.executed_transaction_count = 0 then
        (Except.ok (), [])
      else
        (Except.ok (),
          Effect.log ("info")
              ("RaywatchGeyserPlugin: entry slot=" ++ toString info.slot
                ++ " idx=" ++ toString info.index
                ++ " txs=" ++ toString info.executed_transaction_count)
            :: p.send_entry_event info.slot info.index info.num_hashes
                info.executed_transaction_count)
  | ReplicaEntryInfoVersions.V0_0_2 info =>
      if info.executed_transaction_count = 0 then
        (Except.ok (), [])
      else
        (Except.ok (),
          Effect.log ("info")
              ("RaywatchGeyserPlugin: entry slot=" ++ toString info.slot
                ++ " idx=" ++ toString info.index
                ++ " txs=" ++ toString info.executed_transaction_count
                ++ " starting_tx_index=" ++ toString info.starting_transaction_index)
            :: p.send_entry_event info.slot info.index info.num_hashes
                info.executed_transaction_count)
  | ReplicaEntryInfoVersions.FutureVersion =>
      (Except.ok (),
        [Effect.log ("info")
          ("RaywatchGeyserPlugin: notify_entry called with unsupported entry info version")])

/-- Embedding of the `notify_transaction` trait method (takes `&self`): it
delegates to `handle_tx_versions`. -/
def RaywatchGeyserPlugin.notify_transaction (p : RaywatchGeyserPlugin)
    (tx : ReplicaTransactionInfoVersions) (slot : Nat) :
    Except GeyserPluginError Unit × List Effect :=
  p.handle_tx_versions tx slot

/-- Embedding of the `notify_entry` trait method (takes `&self`): it
delegates to `handle_entry_versions`. -/
def RaywatchGeyserPlugin.notify_entry (p : RaywatchGeyserPlugin)
    (entry : ReplicaEntryInfoVersions) :
    Except GeyserPluginError Unit × List Effect :=
  p.handle_entry_versions entry

/-- Embedding of `RaywatchGeyserPlugin::init_kafka`. Producer creation is
the environment's `create` function (rdkafka `ClientConfig::create` with
the given bootstrap servers); on success the producer is stored, on
failure the error is wrapped in `GeyserPluginError::Custom` and the state
is unchanged. -/
def RaywatchGeyserPlugin.init_kafka (p : RaywatchGeyserPlugin)
    (create : String → Except String ProducerBehavior) (brokers : String) :
    Except GeyserPluginError RaywatchGeyserPlugin :=
  match create brokers with
  | Except.ok producer => Except.ok { p with producer := some producer }
  | Except.error e => Except.error (GeyserPluginError.Custom e)

/-- Broker-address resolution step of `on_load`: on a read failure or a
parse failure of the config file, log an error and fall back to
`default_kafka_brokers`; otherwise use the parsed `kafka_brokers` field.
`readResult` is the outcome of `std::fs::read_to_string(config_file)` and
`parse` the behavior of `serde_json::from_str::<PluginConfig>` (config
parsing itself is an external collaborator). -/
def resolve_brokers (readResult : Except String String)
    (parse : String → Except String PluginConfig) (config_file : String) :
    String × List Effect :=
  match readResult with
  | Except.ok contents =>
      match parse contents with
      | Except.ok cfg => (cfg.kafka_brokers, [])
      | Except.error e =>
          (default_kafka_brokers,
            [Effect.log ("error")
              ("RaywatchGeyserPlugin: failed to parse config " ++ config_file
                ++ ": " ++ e ++ "; using default localhost:9092")])
  | Except.error e =>
      (default_kafka_brokers,
        [Effect.log ("error")
          ("RaywatchGeyserPlugin: failed to read config " ++ config_file
            ++ ": " ++ e ++ "; using default localhost:9092")])

/-- Embedding of the `on_load` trait method: resolve the broker address
(falling back to the default on config errors), then `init_kafka`; only a
producer-creation failure is propagated. Returns the updated plugin state
on success and the original state on failure, with the log effects. -/
def RaywatchGeyserPlugin.on_load (p : RaywatchGeyserPlugin)
    (create : String → Except String ProducerBehavior)
    (readResult : Except String String)
    (parse : String → Except String PluginConfig) (config_file : String) :
    Except GeyserPluginError RaywatchGeyserPlugin × List Effect :=
  let head := Effect.log ("info") ("RaywatchGeyserPlugin: loading with config " ++ config_file)
  let rb := resolve_brokers readResult parse config_file
  match p.init_kafka create rb.1 with
  | Except.ok p2 =>
      (Except.ok p2,
        head :: rb.2
          ++ [Effect.log ("info") ("RaywatchGeyserPlugin: connected to Kafka at " ++ rb.1)])
  | Except.error err => (Except.error err, head :: rb.2)

/-- Embedding of the `on_unload` trait method: log and release the
producer. -/
def RaywatchGeyserPlugin.on_unload (p : RaywatchGeyserPlugin) :
    RaywatchGeyserPlugin × List Effect :=
  ({ p with producer := none }, [Effect.log ("info") ("RaywatchGeyserPlugin: unloading")])

/-- One host callback into the plugin, for stating which callbacks may
change the plugin state. -/
inductive HostCall where
  | load (create : String → Except String ProducerBehavior)
      (readResult : Except String String)
      (parse : String → Except String PluginConfig) (config_file : String)
  | unload
  | tx (t : ReplicaTransactionInfoVersions) (slot : Nat)
  | entry (e : ReplicaEntryInfoVersions)

/-- Plugin state transition for one host callback. `notify_transaction`
and `notify_entry` take `&self` in the source (no interior mutability in
the state), so their branches leave the state untouched; a failed
`on_load` also leaves it untouched (`init_kafka` assigns only after a
successful create). -/
def stepPlugin (p : RaywatchGeyserPlugin) (c : HostCall) :
    RaywatchGeyserPlugin × List Effect :=
  match c with
  | HostCall.load create readResult parse config_file =>
      match p.on_load create readResult parse config_file with
      | (Except.ok p2, effects) => (p2, effects)
      | (Except.error _, effects) => (p, effects)
  | HostCall.unload => p.on_unload
  | HostCall.tx t slot => (p, (p.notify_transaction t slot).2)
  | HostCall.entry e => (p, (p.notify_entry e).2)

/-- With a producer present, `send_tx_event` enqueues exactly one record:
the slot-keyed, JSON-serialized canonical transaction event. -/
lemma publishes_send_tx_event (p : RaywatchGeyserPlugin) (prod : ProducerBehavior)
    (slot : Nat) (sig : String) (vote : Bool) (hp : p.producer = some prod) :
    publishes (p.send_tx_event slot sig vote) =
      [{ topic := p.topic, key := u64BeBytes slot,
         payload := txEventJson { slot := slot, signature := sig, is_vote := vote } }] := by
  cases hs : prod.sendErr <;>
    simp [RaywatchGeyserPlugin.send_tx_event, hp, hs, serde_json_to_vec_tx, publishes]

/-- With a producer present, `send_entry_event` enqueues exactly one
record: the slot-keyed, JSON-serialized canonical entry event. -/
lemma publishes_send_entry_event (p : RaywatchGeyserPlugin) (prod : ProducerBehavior)
    (slot index num_hashes cnt : Nat) (hp : p.producer = some prod) :
    publishes (p.send_entry_event slot index num_hashes cnt) =
      [{ topic := p.topic, key := u64BeBytes slot,
         payload := entryEventJson
           { slot := slot, idx := index, num_hashes := num_hashes,
             executed_tx_count := cnt } }] := by
  cases hs : prod.sendErr <;> cases hf : prod.flushErr <;>
    simp [RaywatchGeyserPlugin.send_entry_event, hp, hs, hf, serde_json_to_vec_entry, publishes]

/-- Without a producer, `send_tx_event` has no effects at all. -/
lemma send_tx_event_no_producer (p : RaywatchGeyserPlugin) (slot : Nat) (sig : String)
    (vote : Bool) (hp : p.producer = none) :
    p.send_tx_event slot sig vote = [] := by
  simp [RaywatchGeyserPlugin.send_tx_event, hp]

/-- Without a producer, `send_entry_event` has no effects at all. -/
lemma send_entry_event_no_producer (p : RaywatchGeyserPlugin)
    (slot index num_hashes cnt : Nat) (hp : p.producer = none) :
    p.send_entry_event slot index num_hashes cnt = [] := by
  simp [RaywatchGeyserPlugin.send_entry_event, hp]

/-- Every record enqueued by `send_tx_event` carries the big-endian slot
bytes as its key. -/
lemma key_of_mem_send_tx (p : RaywatchGeyserPlugin) (slot : Nat) (sig : String)
    (vote : Bool) (r : KafkaRecord)
    (h : Effect.publish r ∈ p.send_tx_event slot sig vote) :
    r.key = u64BeBytes slot := by
  cases hp : p.producer with
  | none => simp [RaywatchGeyserPlugin.send_tx_event, hp] at h
  | some prod =>
      cases hs : prod.sendErr <;>
        simp [RaywatchGeyserPlugin.send_tx_event, hp, hs, serde_json_to_vec_tx] at h <;>
        simp [h]

/-- Every record enqueued by `send_entry_event` carries the big-endian
slot bytes as its key. -/
lemma key_of_mem_send_entry (p : RaywatchGeyserPlugin)
    (slot index num_hashes cnt : Nat) (r : KafkaRecord)
    (h : Effect.publish r ∈ p.send_entry_event slot index num_hashes cnt) :
    r.key = u64BeBytes slot := by
  cases hp : p.producer with
  | none => simp [RaywatchGeyserPlugin.send_entry_event, hp] at h
  | some prod =>
      cases hs : prod.sendErr <;> cases hf : prod.flushErr <;>
        simp [RaywatchGeyserPlugin.send_entry_event, hp, hs, hf, serde_json_to_vec_entry] at h <;>
        simp [h]

/-- Reading the eight big-endian bytes of a `u64` back as a base-256
numeral recovers the number. -/
lemma beValue_u64BeBytes (n : Nat) (h : n < 2 ^ 64) :
    beValue (u64BeBytes n) = n := by
  simp only [beValue, u64BeBytes, List.foldl]
  omega

/-- The big-endian encoding always has exactly eight bytes, each below
256. -/
lemma u64BeBytes_bytes (n : Nat) :
    (u64BeBytes n).length = 8 ∧ ∀ b ∈ u64BeBytes n, b < 256 := by
  refine ⟨rfl, ?_⟩
  intro b hb
  simp [u64BeBytes] at hb
  rcases hb with h | h | h | h | h | h | h | h <;> omega

/-- Log effects do not contribute enqueued records. -/
lemma publishes_cons_log (lv m : String) (l : List Effect) :
    publishes (Effect.log lv m :: l) = publishes l :=
  rfl

/-- Connected sample plugin used by the concrete witnesses: a producer
whose operations succeed, publishing to the configured topic. -/
def wPlugin : RaywatchGeyserPlugin :=
  { producer := some { sendErr := none, flushErr := none }, topic := "raydium-swaps-raw" }

/-- C1: for every known-version entry notification handled by a connected
plugin, an `executed_transaction_count` of zero yields no effects at all
(dropped silently, before serialization), while a positive count yields
exactly one enqueued record. -/
theorem entry_filter_publish_count (p : RaywatchGeyserPlugin) (prod : ProducerBehavior)
    (entry : ReplicaEntryInfoVersions) (c : Nat)
    (hp : p.producer = some prod) (hc : entryExecCount entry = some c) :
    (c = 0 → (p.handle_entry_versions entry).2 = []) ∧
    (0 < c → (publishes (p.handle_entry_versions entry).2).length = 1) := by
  cases entry with
  | V0_0_1 info =>
      simp only [entryExecCount, Option.some.injEq] at hc
      subst hc
      constructor
      · intro h0
        simp [RaywatchGeyserPlugin.handle_entry_versions, h0]
      · intro hpos
        have hne : info.executed_transaction_count ≠ 0 := by omega
        simp [RaywatchGeyserPlugin.handle_entry_versions, hne, publishes_cons_log,
          publishes_send_entry_event p prod _ _ _ _ hp]
  | V0_0_2 info =>
      simp only [entryExecCount, Option.some.injEq] at hc
      subst hc
      constructor
      · intro h0
        simp [RaywatchGeyserPlugin.handle_entry_versions, h0]
      · intro hpos
        have hne : info.executed_transaction_count ≠ 0 := by omega
        simp [RaywatchGeyserPlugin.handle_entry_versions, hne, publishes_cons_log,
          publishes_send_entry_event p prod _ _ _ _ hp]
  | FutureVersion => simp [entryExecCount] at hc

/-- Witness for C1 at the spec's scenario entry (slot 100, index 3, 50
hashes, 7 executed transactions) on the connected sample plugin. -/
theorem entry_filter_publish_count_witness :
    ((7 : Nat) = 0 →
      (wPlugin.handle_entry_versions (ReplicaEntryInfoVersions.V0_0_1 ⟨100, 3, 50, 7⟩)).2 = []) ∧
    (0 < (7 : Nat) →
      (publishes (wPlugin.handle_entry_versions
        (ReplicaEntryInfoVersions.V0_0_1 ⟨100, 3, 50, 7⟩)).2).length = 1) :=
  entry_filter_publish_count wPlugin { sendErr := none, flushErr := none } _ 7 rfl rfl

/-- C2: all known transaction-shape versions carrying the same
`(slot, signature, is_vote)` lead to the same single enqueued record (the
same canonical transaction event), and all known entry-shape versions
carrying the same `(slot, index, num_hashes, executed_tx_count)` lead to
the same enqueued records (the same canonical entry event), whatever the
plugin state. -/
theorem version_adapter_canonical_eq (p : RaywatchGeyserPlugin) (slot : Nat)
    (sig : String) (vote : Bool) (idx1 idx2 : Nat) (s i nh c sti : Nat) :
    publishes (p.handle_tx_versions
        (ReplicaTransactionInfoVersions.V0_0_1 ⟨sig, vote⟩) slot).2 =
      publishes (p.handle_tx_versions
        (ReplicaTransactionInfoVersions.V0_0_2 ⟨sig, vote, idx1⟩) slot).2 ∧
    publishes (p.handle_tx_versions
        (ReplicaTransactionInfoVersions.V0_0_1 ⟨sig, vote⟩) slot).2 =
      publishes (p.handle_tx_versions
        (ReplicaTransactionInfoVersions.V0_0_3 ⟨sig, vote, idx2⟩) slot).2 ∧
    publishes (p.handle_entry_versions
        (ReplicaEntryInfoVersions.V0_0_1 ⟨s, i, nh, c⟩)).2 =
      publishes (p.handle_entry_versions
        (ReplicaEntryInfoVersions.V0_0_2 ⟨s, i, nh, c, sti⟩)).2 := by
  refine ⟨?_, ?_, ?_⟩
  · simp [RaywatchGeyserPlugin.handle_tx_versions, publishes]
  · simp [RaywatchGeyserPlugin.handle_tx_versions, publishes]
  · by_cases hc : c = 0 <;>
      simp [RaywatchGeyserPlugin.handle_entry_versions, hc, publishes]

/-- C4: an unrecognized version tag causes no enqueue and no error for
either notification entry point; its only effect is a single info log. -/
theorem unknown_version_no_publish_ok (p : RaywatchGeyserPlugin) (slot : Nat) :
    (p.notify_transaction ReplicaTransactionInfoVersions.FutureVersion slot).1 = Except.ok () ∧
    publishes (p.notify_transaction ReplicaTransactionInfoVersions.FutureVersion slot).2 = [] ∧
    (p.notify_entry ReplicaEntryInfoVersions.FutureVersion).1 = Except.ok () ∧
    publishes (p.notify_entry ReplicaEntryInfoVersions.FutureVersion).2 = [] ∧
    (p.notify_transaction ReplicaTransactionInfoVersions.FutureVersion slot).2 =
      [Effect.log ("info")
        ("RaywatchGeyserPlugin: notify_transaction called with unsupported transaction info version at slot "
          ++ toString slot)] ∧
    (p.notify_entry ReplicaEntryInfoVersions.FutureVersion).2 =
      [Effect.log ("info")
        ("RaywatchGeyserPlugin: notify_entry called with unsupported entry info version")] :=
  ⟨rfl, rfl, rfl, rfl, rfl, rfl⟩

/-- C5: for every input version and field values and every plugin state
(hence every producer behavior, including send and flush failures), both
notification entry points return `Ok(())`; no error is ever propagated to
the host. -/
theorem notify_always_ok (p : RaywatchGeyserPlugin)
    (tx : ReplicaTransactionInfoVersions) (slot : Nat)
    (entry : ReplicaEntryInfoVersions) :
    (p.notify_transaction tx slot).1 = Except.ok () ∧
    (p.notify_entry entry).1 = Except.ok () := by
  constructor
  · cases tx <;> rfl
  · cases entry with
    | V0_0_1 info =>
        by_cases h : info.executed_transaction_count = 0 <;>
          simp [RaywatchGeyserPlugin.notify_entry, RaywatchGeyserPlugin.handle_entry_versions, h]
    | V0_0_2 info =>
        by_cases h : info.executed_transaction_count = 0 <;>
          simp [RaywatchGeyserPlugin.notify_entry, RaywatchGeyserPlugin.handle_entry_versions, h]
    | FutureVersion => rfl

/-- C10: the notification callbacks never change the plugin state: after
any `notify_transaction` or `notify_entry` step the producer handle and
the topic are those from before the call (they take `&self` and the state
has no interior mutability). -/
theorem notify_preserves_state (p : RaywatchGeyserPlugin)
    (t : ReplicaTransactionInfoVersions) (slot : Nat)
    (e : ReplicaEntryInfoVersions) :
    (stepPlugin p (HostCall.tx t slot)).1.producer = p.producer ∧
    (stepPlugin p (HostCall.tx t slot)).1.topic = p.topic ∧
    (stepPlugin p (HostCall.entry e)).1.producer = p.producer ∧
    (stepPlugin p (HostCall.entry e)).1.topic = p.topic :=
  ⟨rfl, rfl, rfl, rfl⟩

/-- Uninitialized sample plugin (no producer) used by witnesses. -/
def wUninitPlugin : RaywatchGeyserPlugin :=
  { producer := none, topic := "raydium-swaps-raw" }

/-- Record published for the spec's scenario transaction (slot 42,
signature "abc", not a vote). -/
def wTxRecord : KafkaRecord :=
  { topic := "raydium-swaps-raw", key := u64BeBytes 42,
    payload := txEventJson { slot := 42, signature := "abc", is_vote := false } }

/-- Record published for an entry at slot 42 (index 3, 50 hashes, 7
executed transactions). -/
def wEntryRecord : KafkaRecord :=
  { topic := "raydium-swaps-raw", key := u64BeBytes 42,
    payload := entryEventJson { slot := 42, idx := 3, num_hashes := 50, executed_tx_count := 7 } }

/-- C3: every record enqueued for a transaction notification is keyed by
the 8-byte big-endian encoding of the notification's slot, every record
enqueued for a known-version entry notification is keyed by the 8-byte
big-endian encoding of the entry's slot (eight bytes whose base-256 value
is the slot), and records of the two kinds sharing a slot have
byte-identical keys. -/
theorem publish_key_be_slot (p : RaywatchGeyserPlugin)
    (t : ReplicaTransactionInfoVersions) (slot : Nat)
    (e : ReplicaEntryInfoVersions) (es : Nat) (r q : KafkaRecord)
    (ht : Effect.publish r ∈ (p.notify_transaction t slot).2)
    (he : entrySlot e = some es)
    (hq : Effect.publish q ∈ (p.notify_entry e).2)
    (hslot : slot < 2 ^ 64) (hes : es < 2 ^ 64) :
    r.key = u64BeBytes slot ∧ q.key = u64BeBytes es ∧
    r.key.length = 8 ∧ beValue r.key = slot ∧
    q.key.length = 8 ∧ beValue q.key = es ∧
    (slot = es → r.key = q.key) := by
  have hr : r.key = u64BeBytes slot := by
    cases t with
    | V0_0_1 tx_info =>
        simp only [RaywatchGeyserPlugin.notify_transaction,
          RaywatchGeyserPlugin.handle_tx_versions, List.mem_cons] at ht
        rcases ht with h | h
        · simp at h
        · exact key_of_mem_send_tx _ _ _ _ _ h
    | V0_0_2 tx_info =>
        simp only [RaywatchGeyserPlugin.notify_transaction,
          RaywatchGeyserPlugin.handle_tx_versions, List.mem_cons] at ht
        rcases ht with h | h
        · simp at h
        · exact key_of_mem_send_tx _ _ _ _ _ h
    | V0_0_3 tx_info =>
        simp only [RaywatchGeyserPlugin.notify_transaction,
          RaywatchGeyserPlugin.handle_tx_versions, List.mem_cons] at ht
        rcases ht with h | h
        · simp at h
        · exact key_of_mem_send_tx _ _ _ _ _ h
    | FutureVersion =>
        simp [RaywatchGeyserPlugin.notify_transaction,
          RaywatchGeyserPlugin.handle_tx_versions] at ht
  have hqk : q.key = u64BeBytes es := by
    cases e with
    | V0_0_1 info =>
        simp only [entrySlot, Option.some.injEq] at he
        subst he
        by_cases h0 : info.executed_transaction_count = 0
        · simp [RaywatchGeyserPlugin.notify_entry,
            RaywatchGeyserPlugin.handle_entry_versions, h0] at hq
        · simp only [RaywatchGeyserPlugin.notify_entry,
            RaywatchGeyserPlugin.handle_entry_versions] at hq
          rw [if_neg h0] at hq
          simp only [List.mem_cons] at hq
          rcases hq with h | h
          · simp at h
          · exact key_of_mem_send_entry _ _ _ _ _ _ h
    | V0_0_2 info =>
        simp only [entrySlot, Option.some.injEq] at he
        subst he
        by_cases h0 : info.executed_transaction_count = 0
        · simp [RaywatchGeyserPlugin.notify_entry,
            RaywatchGeyserPlugin.handle_entry_versions, h0] at hq
        · simp only [RaywatchGeyserPlugin.notify_entry,
            RaywatchGeyserPlugin.handle_entry_versions] at hq
          rw [if_neg h0] at hq
          simp only [List.mem_cons] at hq
          rcases hq with h | h
          · simp at h
          · exact key_of_mem_send_entry _ _ _ _ _ _ h
    | FutureVersion => simp [entrySlot] at he
  refine ⟨hr, hqk, ?_, ?_, ?_, ?_, ?_⟩
  · rw [hr]; rfl
  · rw [hr]; exact beValue_u64BeBytes slot hslot
  · rw [hqk]; rfl
  · rw [hqk]; exact beValue_u64BeBytes es hes
  · intro hse; rw [hr, hqk, hse]

/-- Witness for C3: a transaction and an entry both at slot 42 on the
connected sample plugin get the same 8-byte big-endian key. -/
theorem publish_key_be_slot_witness :
    wTxRecord.key = u64BeBytes 42 ∧ wEntryRecord.key = u64BeBytes 42 ∧
    wTxRecord.key.length = 8 ∧ beValue wTxRecord.key = 42 ∧
    wEntryRecord.key.length = 8 ∧ beValue wEntryRecord.key = 42 ∧
    ((42 : Nat) = 42 → wTxRecord.key = wEntryRecord.key) :=
  publish_key_be_slot wPlugin (ReplicaTransactionInfoVersions.V0_0_1 ⟨"abc", false⟩) 42
    (ReplicaEntryInfoVersions.V0_0_1 ⟨42, 3, 50, 7⟩) 42 wTxRecord wEntryRecord
    (by decide) rfl (by decide) (by decide) (by decide)

/-- C6: publish with no producer is a no-op that cannot fail: before
`init_kafka` has stored a producer, or after `on_unload` has released it,
`send_tx_event` and `send_entry_event` serialize nothing, enqueue nothing
and log nothing. -/
theorem publish_noop_without_producer (p q : RaywatchGeyserPlugin) (slot : Nat)
    (sig : String) (vote : Bool) (index num_hashes cnt : Nat)
    (hp : p.producer = none) :
    p.send_tx_event slot sig vote = [] ∧
    p.send_entry_event slot index num_hashes cnt = [] ∧
    (q.on_unload).1.send_tx_event slot sig vote = [] ∧
    (q.on_unload).1.send_entry_event slot index num_hashes cnt = [] :=
  ⟨send_tx_event_no_producer p slot sig vote hp,
   send_entry_event_no_producer p slot index num_hashes cnt hp,
   send_tx_event_no_producer _ slot sig vote rfl,
   send_entry_event_no_producer _ slot index num_hashes cnt rfl⟩

/-- Witness for C6: sends on the uninitialized sample plugin, and on the
connected sample plugin after unloading, do nothing. -/
theorem publish_noop_without_producer_witness :
    wUninitPlugin.send_tx_event 42 "abc" false = [] ∧
    wUninitPlugin.send_entry_event 42 3 50 7 = [] ∧
    (wPlugin.on_unload).1.send_tx_event 42 "abc" false = [] ∧
    (wPlugin.on_unload).1.send_entry_event 42 3 50 7 = [] :=
  publish_noop_without_producer wUninitPlugin wPlugin 42 "abc" false 3 50 7 rfl

/-- Producer factory that always succeeds, used by witnesses. -/
def wCreate : String → Except String ProducerBehavior :=
  fun _ => Except.ok { sendErr := none, flushErr := none }

/-- Producer factory that always fails, used by witnesses. -/
def wCreateFail : String → Except String ProducerBehavior :=
  fun _ => Except.error "boom"

/-- Config parse behavior that always fails, used by witnesses. -/
def wParseFail : String → Except String PluginConfig :=
  fun _ => Except.error "bad"

/-- C7: when the config file cannot be read, or reads but fails to parse,
`on_load` falls back to the hardcoded `"localhost:9092"` (its outcome is
exactly that of `init_kafka` at the default address), logs the config
failure, and still succeeds whenever the producer can be created at the
default address. -/
theorem config_failure_defaults_brokers (p : RaywatchGeyserPlugin)
    (create : String → Except String ProducerBehavior)
    (parse : String → Except String PluginConfig)
    (config_file e contents pe : String) (prod : ProducerBehavior)
    (hparse : parse contents = Except.error pe)
    (hcreate : create default_kafka_brokers = Except.ok prod) :
    default_kafka_brokers = "localhost:9092" ∧
    (p.on_load create (Except.error e) parse config_file).1 =
      p.init_kafka create "localhost:9092" ∧
    (p.on_load create (Except.ok contents) parse config_file).1 =
      p.init_kafka create "localhost:9092" ∧
    (p.on_load create (Except.error e) parse config_file).1 =
      Except.ok { p with producer := some prod } ∧
    (p.on_load create (Except.ok contents) parse config_file).1 =
      Except.ok { p with producer := some prod } ∧
    Effect.log ("error")
        ("RaywatchGeyserPlugin: failed to read config " ++ config_file ++ ": " ++ e
          ++ "; using default localhost:9092")
      ∈ (p.on_load create (Except.error e) parse config_file).2 ∧
    Effect.log ("error")
        ("RaywatchGeyserPlugin: failed to parse config " ++ config_file ++ ": " ++ pe
          ++ "; using default localhost:9092")
      ∈ (p.on_load create (Except.ok contents) parse config_file).2 := by
  have hd : default_kafka_brokers = "localhost:9092" := rfl
  refine ⟨hd, ?_, ?_, ?_, ?_, ?_, ?_⟩ <;>
    simp [RaywatchGeyserPlugin.on_load, resolve_brokers, RaywatchGeyserPlugin.init_kafka,
      hparse, hd ▸ hcreate, default_kafka_brokers]

/-- Witness for C7: with an unreadable file (or a file parsed as invalid)
and a working broker, the sample plugin loads with the default address. -/
theorem config_failure_defaults_brokers_witness :
    default_kafka_brokers = "localhost:9092" ∧
    (wUninitPlugin.on_load wCreate (Except.error "missing") wParseFail "cfg.json").1 =
      wUninitPlugin.init_kafka wCreate "localhost:9092" ∧
    (wUninitPlugin.on_load wCreate (Except.ok "oops") wParseFail "cfg.json").1 =
      wUninitPlugin.init_kafka wCreate "localhost:9092" ∧
    (wUninitPlugin.on_load wCreate (Except.error "missing") wParseFail "cfg.json").1 =
      Except.ok { wUninitPlugin with producer := some { sendErr := none, flushErr := none } } ∧
    (wUninitPlugin.on_load wCreate (Except.ok "oops") wParseFail "cfg.json").1 =
      Except.ok { wUninitPlugin with producer := some { sendErr := none, flushErr := none } } ∧
    Effect.log ("error")
        ("RaywatchGeyserPlugin: failed to read config " ++ "cfg.json" ++ ": " ++ "missing"
          ++ "; using default localhost:9092")
      ∈ (wUninitPlugin.on_load wCreate (Except.error "missing") wParseFail "cfg.json").2 ∧
    Effect.log ("error")
        ("RaywatchGeyserPlugin: failed to parse config " ++ "cfg.json" ++ ": " ++ "bad"
          ++ "; using default localhost:9092")
      ∈ (wUninitPlugin.on_load wCreate (Except.ok "oops") wParseFail "cfg.json").2 :=
  config_failure_defaults_brokers wUninitPlugin wCreate wParseFail "cfg.json" "missing"
    "oops" "bad" { sendErr := none, flushErr := none } rfl rfl

/-- C8: the outcome of `on_load` is decided by producer creation alone:
if creating the producer at the resolved broker address fails, `on_load`
returns that error wrapped as `GeyserPluginError::Custom` (the plugin is
not activated); if it succeeds, `on_load` succeeds — so producer-creation
failure is the only fatal condition of loading. -/
theorem producer_create_failure_fatal (p : RaywatchGeyserPlugin)
    (create : String → Except String ProducerBehavior)
    (readResult : Except String String)
    (parse : String → Except String PluginConfig) (config_file : String)
    (res : Except String ProducerBehavior)
    (h : create (resolve_brokers readResult parse config_file).1 = res) :
    (p.on_load create readResult parse config_file).1 =
      match res with
      | Except.ok prod => Except.ok { p with producer := some prod }
      | Except.error err => Except.error (GeyserPluginError.Custom err) := by
  cases res with
  | ok prod => simp [RaywatchGeyserPlugin.on_load, RaywatchGeyserPlugin.init_kafka, h]
  | error err => simp [RaywatchGeyserPlugin.on_load, RaywatchGeyserPlugin.init_kafka, h]

/-- Witness for C8: a failing producer factory makes the load fail with
the wrapped creation error. -/
theorem producer_create_failure_fatal_witness :
    (wUninitPlugin.on_load wCreateFail (Except.error "missing") wParseFail "cfg.json").1 =
      Except.error (GeyserPluginError.Custom "boom") :=
  producer_create_failure_fatal wUninitPlugin wCreateFail (Except.error "missing")
    wParseFail "cfg.json" (Except.error "boom") rfl

/-- C9: every published payload is the compact JSON of the canonical
event with exactly the source field names in declaration order — a
transaction publishes one record whose payload spells
slot/signature/is_vote and an entry (with a positive count) one record
whose payload spells slot/idx/num_hashes/executed_tx_count — and at the
spec's scenario entry (slot 100, index 3, 50 hashes, 7 executed
transactions) the payload and the big-endian key bytes are the literal
values the spec gives. -/
theorem payload_json_format (p : RaywatchGeyserPlugin) (prod : ProducerBehavior)
    (slot s i nh cnt : Nat) (sig : String) (vote : Bool)
    (hp : p.producer = some prod) (hcnt : 0 < cnt) :
    publishes (p.notify_transaction
        (ReplicaTransactionInfoVersions.V0_0_1 ⟨sig, vote⟩) slot).2 =
      [{ topic := p.topic, key := u64BeBytes slot,
         payload := "\x7b\"slot\":" ++ toString slot
           ++ ",\"signature\":" ++ jsonString sig
           ++ ",\"is_vote\":" ++ (if vote then "true" else "false") ++ "\x7d" }] ∧
    publishes (p.notify_entry
        (ReplicaEntryInfoVersions.V0_0_1 ⟨s, i, nh, cnt⟩)).2 =
      [{ topic := p.topic, key := u64BeBytes s,
         payload := "\x7b\"slot\":" ++ toString s
           ++ ",\"idx\":" ++ toString i
           ++ ",\"num_hashes\":" ++ toString nh
           ++ ",\"executed_tx_count\":" ++ toString cnt ++ "\x7d" }] ∧
    entryEventJson { slot := 100, idx := 3, num_hashes := 50, executed_tx_count := 7 } =
      "\x7b\"slot\":100,\"idx\":3,\"num_hashes\":50,\"executed_tx_count\":7\x7d" ∧
    u64BeBytes 100 = [0, 0, 0, 0, 0, 0, 0, 100] := by
  have hne : cnt ≠ 0 := by omega
  refine ⟨?_, ?_, by decide, by decide⟩
  · simp [RaywatchGeyserPlugin.notify_transaction, RaywatchGeyserPlugin.handle_tx_versions,
      publishes_cons_log, publishes_send_tx_event p prod slot sig vote hp, txEventJson]
  · simp [RaywatchGeyserPlugin.notify_entry, RaywatchGeyserPlugin.handle_entry_versions,
      hne, publishes_cons_log, publishes_send_entry_event p prod s i nh cnt hp,
      entryEventJson]

/-- Witness for C9 on the connected sample plugin: a slot-42 transaction
("abc", not a vote) and the spec's scenario entry. -/
theorem payload_json_format_witness :
    publishes (wPlugin.notify_transaction
        (ReplicaTransactionInfoVersions.V0_0_1 ⟨"abc", false⟩) 42).2 =
      [{ topic := wPlugin.topic, key := u64BeBytes 42,
         payload := "\x7b\"slot\":" ++ toString (42 : Nat)
           ++ ",\"signature\":" ++ jsonString "abc"
           ++ ",\"is_vote\":" ++ (if false then "true" else "false") ++ "\x7d" }] ∧
    publishes (wPlugin.notify_entry
        (ReplicaEntryInfoVersions.V0_0_1 ⟨100, 3, 50, 7⟩)).2 =
      [{ topic := wPlugin.topic, key := u64BeBytes 100,
         payload := "\x7b\"slot\":" ++ toString (100 : Nat)
           ++ ",\"idx\":" ++ toString (3 : Nat)
           ++ ",\"num_hashes\":" ++ toString (50 : Nat)
           ++ ",\"executed_tx_count\":" ++ toString (7 : Nat) ++ "\x7d" }] ∧
    entryEventJson { slot := 100, idx := 3, num_hashes := 50, executed_tx_count := 7 } =
      "\x7b\"slot\":100,\"idx\":3,\"num_hashes\":50,\"executed_tx_count\":7\x7d" ∧
    u64BeBytes 100 = [0, 0, 0, 0, 0, 0, 0, 100] :=
  payload_json_format wPlugin { sendErr := none, flushErr := none } 42 100 3 50 7
    "abc" false rfl (by decide)
